import Mathlib

/-!
Verification of the Sonos gateway adapter (files `src/sonos/mod.rs` and
`src/app/config/sonos.rs`) against its natural-language specification.

The Rust code is shallowly embedded: pure string manipulation is translated
to functions on `String` / `List Char` / byte lists (`List Nat`, each entry
< 256), the JSON values produced by `serde_json` are an inductive type, and
the outcome of each outbound HTTP request is an explicit parameter, so each
service method becomes a function from its inputs and the request outcome to
`Except Unit result` (mirroring Rust `Result<_, Box<dyn Error>>`, whose error
payload we do not model).  u64 / u32 / u8 arithmetic and casts are modelled
on `Nat` with explicit `% 2 ^ 64`, `% 2 ^ 32`, `% 2 ^ 8` where the machine
width matters (release-build wrapping semantics).
-/

/-! ### Byte-level string helpers

Rust strings are UTF-8 byte sequences.  `charUtf8` is the standard UTF-8
encoding of one code point, `strBytes` the byte sequence of a string, and
`utf8Decode` the strict UTF-8 validation/decoding performed by Rust's
`String::from_utf8` (rejecting overlong forms, surrogates and > U+10FFFF). -/

def charUtf8 (c : Char) : List Nat :=
  let n := c.toNat
  if n < 128 then [n]
  else if n < 2048 then [192 + n / 64, 128 + n % 64]
  else if n < 65536 then [224 + n / 4096, 128 + (n / 64) % 64, 128 + n % 64]
  else [240 + n / 262144, 128 + (n / 4096) % 64, 128 + (n / 64) % 64, 128 + n % 64]

def strBytes (s : String) : List Nat :=
  (s.data.map charUtf8).flatten

def isContByte (b : Nat) : Bool :=
  decide (128 ≤ b ∧ b ≤ 191)

/-- Allowed second byte of a three-byte sequence, given its first byte
(excludes overlong encodings and UTF-16 surrogate code points, exactly as
Rust's `str` validation does). -/
def utf8Valid3 (b b1 : Nat) : Bool :=
  if b = 224 then decide (160 ≤ b1 ∧ b1 ≤ 191)
  else if b = 237 then decide (128 ≤ b1 ∧ b1 ≤ 159)
  else isContByte b1

/-- Allowed second byte of a four-byte sequence, given its first byte. -/
def utf8Valid4 (b b1 : Nat) : Bool :=
  if b = 240 then decide (144 ≤ b1 ∧ b1 ≤ 191)
  else if b = 244 then decide (128 ≤ b1 ∧ b1 ≤ 143)
  else isContByte b1

def utf8Decode : List Nat → Option (List Char)
  | [] => some []
  | b :: rest =>
    if b ≤ 127 then
      (utf8Decode rest).map (fun cs => Char.ofNat b :: cs)
    else if 194 ≤ b ∧ b ≤ 223 then
      match rest with
      | b1 :: rest1 =>
        if isContByte b1 then
          (utf8Decode rest1).map (fun cs => Char.ofNat ((b - 192) * 64 + (b1 - 128)) :: cs)
        else none
      | [] => none
    else if 224 ≤ b ∧ b ≤ 239 then
      match rest with
      | b1 :: b2 :: rest2 =>
        if utf8Valid3 b b1 && isContByte b2 then
          (utf8Decode rest2).map
            (fun cs => Char.ofNat ((b - 224) * 4096 + (b1 - 128) * 64 + (b2 - 128)) :: cs)
        else none
      | _ => none
    else if 240 ≤ b ∧ b ≤ 244 then
      match rest with
      | b1 :: b2 :: b3 :: rest3 =>
        if utf8Valid4 b b1 && isContByte b2 && isContByte b3 then
          (utf8Decode rest3).map
            (fun cs => Char.ofNat ((b - 240) * 262144 + (b1 - 128) * 4096 +
                                   (b2 - 128) * 64 + (b3 - 128)) :: cs)
        else none
      | _ => none
    else none

/-! ### Percent decoding and encoding (the `urlencoding` crate)

`percentDecodeBytes` is `urlencoding::decode_binary`: a `%` followed by two
hex digits becomes the denoted byte; malformed sequences are passed through
unchanged.  `urlDecode` is `urlencoding::decode`: percent-decode the bytes,
then re-validate as UTF-8 (`none` = `Err(FromUtf8Error)`).  `urlEncode` is
`urlencoding::encode`: every byte outside `A-Z a-z 0-9 - . _ ~` becomes
`%XX` with uppercase hex. -/

def hexVal (b : Nat) : Option Nat :=
  if 48 ≤ b ∧ b ≤ 57 then some (b - 48)
  else if 65 ≤ b ∧ b ≤ 70 then some (b - 55)
  else if 97 ≤ b ∧ b ≤ 102 then some (b - 87)
  else none

def percentDecodeBytes : List Nat → List Nat
  | [] => []
  | 37 :: rest =>
    match rest with
    | [] => [37]
    | [b1] => [37, b1]
    | b1 :: b2 :: rest2 =>
      match hexVal b1, hexVal b2 with
      | some h1, some h2 => (h1 * 16 + h2) :: percentDecodeBytes rest2
      | some _, none => 37 :: b1 :: percentDecodeBytes (b2 :: rest2)
      | none, _ => 37 :: percentDecodeBytes (b1 :: b2 :: rest2)
  | b :: rest => b :: percentDecodeBytes rest

def urlDecode (s : String) : Option String :=
  (utf8Decode (percentDecodeBytes (strBytes s))).map String.mk

def hexDigitUpper (n : Nat) : Char :=
  if n < 10 then Char.ofNat (48 + n) else Char.ofNat (55 + n)

def isUnreservedByte (b : Nat) : Bool :=
  decide ((65 ≤ b ∧ b ≤ 90) ∨ (97 ≤ b ∧ b ≤ 122) ∨ (48 ≤ b ∧ b ≤ 57) ∨
          b = 45 ∨ b = 46 ∨ b = 95 ∨ b = 126)

def encodeByte (b : Nat) : List Char :=
  if isUnreservedByte b then [Char.ofNat b]
  else ['%', hexDigitUpper (b / 16), hexDigitUpper (b % 16)]

def urlEncode (s : String) : String :=
  String.mk ((strBytes s).map encodeByte).flatten

/-! ### Splitting (Rust `str::split`)

`splitOnChar` is `split(c)` for a one-character pattern; `splitOnSeq` is
`split(pat)` for a multi-character pattern: leftmost non-overlapping
occurrences, empty pieces kept. -/

def splitOnChar (sep : Char) : List Char → List (List Char)
  | [] => [[]]
  | c :: rest =>
    if c = sep then [] :: splitOnChar sep rest
    else
      match splitOnChar sep rest with
      | [] => [[c]]
      | p :: ps => (c :: p) :: ps

/-- Worker for `splitOnSeq`: with `skip = 0`, returns the piece before the
first occurrence of the (nonempty) pattern `m0 :: ms` paired with the split
of what follows that occurrence; a positive `skip` first discards that many
characters (used to step over the matched pattern one character at a time,
keeping the recursion structural). -/
def splitSeqAux (m0 : Char) (ms : List Char) : List Char → Nat → List Char × List (List Char)
  | [], _ => ([], [])
  | _ :: rest, k + 1 => splitSeqAux m0 ms rest k
  | c :: rest, 0 =>
    if (m0 :: ms).isPrefixOf (c :: rest) then
      ([], (splitSeqAux m0 ms rest ms.length).1 :: (splitSeqAux m0 ms rest ms.length).2)
    else
      ((c :: (splitSeqAux m0 ms rest 0).1), (splitSeqAux m0 ms rest 0).2)

def splitOnSeq (pat : List Char) (l : List Char) : List (List Char) :=
  match pat with
  | [] => [l]
  | m0 :: ms => (splitSeqAux m0 ms l 0).1 :: (splitSeqAux m0 ms l 0).2

/-! ### Unsigned integer parsing (Rust `str::parse::<u64>()`)

An optional leading `+`, then one or more ASCII digits, value below
`2 ^ 64`; anything else is `Err` (here `none`). -/

def parseU64 (cs : List Char) : Option Nat :=
  let ds := match cs with
    | c :: rest => if c = '+' then rest else cs
    | [] => cs
  if ds ≠ [] ∧ ds.all (fun c => c.isDigit) then
    let v := ds.foldl (fun a c => a * 10 + (c.toNat - 48)) 0
    if v < 2 ^ 64 then some v else none
  else none

/-! ### JSON values (`serde_json::Value`)

`posInt n` is a non-negative integer (serde stores these as `u64`, so every
value actually produced by parsing satisfies `n < 2 ^ 64`); `negInt` a
negative integer; `floatNum` a floating-point number, whose value is
irrelevant here because every accessor the adapter uses (`as_str`,
`as_u64`, `as_array`, `get`) ignores it.  Objects are key/value lists
(serde's map; the keys of any parsed object are distinct). -/

inductive Json where
  | null
  | boolVal (b : Bool)
  | posInt (n : Nat)
  | negInt (n : Int)
  | floatNum
  | strVal (s : String)
  | arr (elems : List Json)
  | obj (fields : List (String × Json))

def lookupField : List (String × Json) → String → Option Json
  | [], _ => none
  | (k, v) :: rest, key => if k = key then some v else lookupField rest key

/-- `Value::get(key)`: `Some` only on objects that contain the key. -/
def Json.get (j : Json) (key : String) : Option Json :=
  match j with
  | .obj fields => lookupField fields key
  | _ => none

/-- `Value::as_str`. -/
def Json.as_str : Json → Option String
  | .strVal s => some s
  | _ => none

/-- `Value::as_u64`: `Some` exactly for non-negative integer numbers. -/
def Json.as_u64 : Json → Option Nat
  | .posInt n => some n
  | _ => none

/-- `Value::as_array`. -/
def Json.as_array : Json → Option (List Json)
  | .arr xs => some xs
  | _ => none

/-! ### Data model of `src/sonos/mod.rs`

`volume` holds a `u8` (so an entry < 256), `position` and `duration` hold
`u32` values (< 2 ^ 32). -/

structure SonosSpeaker where
  id : String
  name : String
  available : Bool
  volume : Option Nat
deriving DecidableEq, Repr

structure SonosResponse where
  success : Bool
  message : String
deriving DecidableEq, Repr

structure SonosState where
  is_playing : Bool
  artist : Option String
  title : Option String
  position : Option Nat
  duration : Option Nat
deriving DecidableEq, Repr

/-- `reqwest::StatusCode::is_success`: status in `200..=299`. -/
def isSuccessStatus (status : Nat) : Bool :=
  decide (200 ≤ status ∧ status < 300)

/-- Outcome of one GET request, as seen by `get_speakers` / `get_state`:
`transportErr` is `client.get(url).send()` returning `Err`; `response status
body` is a response whose `.json::<serde_json::Value>()` call would produce
`body` (`none` when the body is not valid JSON, i.e. `.json()` fails). -/
inductive GetOutcome where
  | transportErr
  | response (status : Nat) (body : Option Json)

/-- Outcome of the POST in `play_track`: `transportErr desc` is a transport
failure whose rendered error is `desc`; otherwise a response with its status
code, the canonical reason phrase of that status (reqwest displays a status
as `code reason`), and `body` the result of `.text()` (`none` if reading the
body fails, which `unwrap_or_default` turns into `""`). -/
inductive PostOutcome where
  | transportErr (desc : String)
  | response (status : Nat) (reason : String) (body : Option String)

/-! ### `parse_time_to_seconds` (src/sonos/mod.rs lines 242-260)

Splits on `:`; two fields are `MM:SS`, three are `H:MM:SS`, anything else is
`None`.  The u64 multiply/add wraps modulo `2 ^ 64` (release-build
semantics; a debug build would abort on overflow instead). -/

def parse_time_to_seconds (time_str : String) : Option Nat :=
  let parts := splitOnChar ':' time_str.data
  match parts with
  | [p0, p1] =>
    match parseU64 p0, parseU64 p1 with
    | some minutes, some seconds => some ((minutes * 60 + seconds) % 2 ^ 64)
    | _, _ => none
  | [p0, p1, p2] =>
    match parseU64 p0, parseU64 p1, parseU64 p2 with
    | some hours, some minutes, some seconds =>
        some ((hours * 3600 + minutes * 60 + seconds) % 2 ^ 64)
    | _, _, _ => none
  | _ => none

/-! ### `get_speakers` (src/sonos/mod.rs lines 77-120) -/

/-- Body of the `for zone in zones_array` loop (lines 89-105): a speaker is
pushed only when the zone has a `coordinator` whose `uuid` and `roomName`
are both strings; `volume` is `coordinator.state.volume` read `as_u64` and
cast `as u8` (truncation modulo 256). -/
def zoneSpeaker (zone : Json) : Option SonosSpeaker :=
  match zone.get "coordinator" with
  | none => none
  | some coordinator =>
    match (coordinator.get "uuid").bind Json.as_str,
          (coordinator.get "roomName").bind Json.as_str with
    | some _uuid, some room_name =>
      some { id := room_name
             name := room_name
             available := true
             volume := (((coordinator.get "state").bind (fun s => s.get "volume")).bind
                          Json.as_u64).map (fun v => v % 2 ^ 8) }
    | _, _ => none

/-- The loop itself: one push per zone that yields a speaker, in order. -/
def speakersLoop : List Json → List SonosSpeaker
  | [] => []
  | zone :: rest =>
    match zoneSpeaker zone with
    | some spk => spk :: speakersLoop rest
    | none => speakersLoop rest

/-- Lines 84-108: a non-array body leaves the speaker list empty. -/
def speakersOfZones (zones : Json) : List SonosSpeaker :=
  match zones.as_array with
  | some zones_array => speakersLoop zones_array
  | none => []

/-- `SonosService::get_speakers`.  A transport error or a non-success status
yields `Ok(vec![])`; on a success status the body is deserialized with `?`,
so an unparsable body propagates the error (`Except.error`). -/
def get_speakers (o : GetOutcome) : Except Unit (List SonosSpeaker) :=
  match o with
  | .transportErr => .ok []
  | .response status body =>
    if isSuccessStatus status then
      match body with
      | some zones => .ok (speakersOfZones zones)
      | none => .error ()
    else .ok []

/-! ### `get_state` (src/sonos/mod.rs lines 173-238) -/

/-- Field extraction from a parsed state body (lines 182-215). -/
def stateOfJson (state_data : Json) : SonosState :=
  { is_playing := ((((state_data.get "playbackState").bind Json.as_str).map
                     (fun s => s == "PLAYING")).getD false)
    artist := ((state_data.get "currentTrack").bind (fun track => track.get "artist")).bind
                Json.as_str
    title := ((state_data.get "currentTrack").bind (fun track => track.get "title")).bind
               Json.as_str
    position := (((state_data.get "relTime").bind Json.as_str).bind
                   parse_time_to_seconds).map (fun s => s % 2 ^ 32)
    duration := ((((state_data.get "currentTrack").bind (fun track => track.get "duration")).bind
                    Json.as_str).bind parse_time_to_seconds).map (fun s => s % 2 ^ 32) }

/-- `SonosService::get_state`.  Transport errors and non-success statuses
yield the all-empty state; on a success status the body is deserialized with
`?`, so an unparsable body propagates the error. -/
def get_state (o : GetOutcome) : Except Unit SonosState :=
  match o with
  | .transportErr =>
    .ok { is_playing := false, artist := none, title := none
          position := none, duration := none }
  | .response status body =>
    if isSuccessStatus status then
      match body with
      | some state_data => .ok (stateOfJson state_data)
      | none => .error ()
    else
      .ok { is_playing := false, artist := none, title := none
            position := none, duration := none }

/-! ### `play_track` (src/sonos/mod.rs lines 124-170) -/

def audioMarker : List Char := "/audio/".data

/-- Lines 129-134: `track_url.split("/audio/").nth(1)` percent-decoded (the
`?` on `urlencoding::decode` makes this `none` when the decoded bytes are
not valid UTF-8); without a second split piece the URL is used as-is. -/
def trackPath (track_url : String) : Option String :=
  match (splitOnSeq audioMarker track_url.data).get? 1 with
  | some path_part => urlDecode (String.mk path_part)
  | none => some track_url

/-- Line 137: the share URI, before percent-encoding. -/
def cifsUri (track_url file_server : String) : Option String :=
  (trackPath track_url).map
    (fun track_path => "x-file-cifs://" ++ file_server ++ "/" ++ track_path)

/-- Lines 140-143: the outbound request URL. -/
def playRequestUrl (base_url speaker_id cifs_uri : String) : String :=
  base_url ++ "/" ++ speaker_id ++ "/setavtransporturi/" ++ urlEncode cifs_uri

/-- `SonosService::play_track`.  The only `?` is on `urlencoding::decode`,
so the call errors exactly when the extracted path fails to decode; every
HTTP outcome is mapped to an `Ok` `SonosResponse`. -/
def play_track (_speaker_id track_url _file_server : String) (o : PostOutcome) :
    Except Unit SonosResponse :=
  match trackPath track_url with
  | none => .error ()
  | some _track_path =>
    match o with
    | .transportErr e =>
      .ok { success := false, message := "Connection error: " ++ e }
    | .response status reason body =>
      if isSuccessStatus status then
        .ok { success := true, message := "Track started playing on Sonos" }
      else
        .ok { success := false
              message := "HTTP error " ++ toString status ++ " " ++ reason ++ ": " ++
                         body.getD "" }

/-! ### Configuration (src/app/config/sonos.rs) -/

def DEFAULT_SONOS_API_URL : String := "http://192.168.0.5:5005"

def DEFAULT_SONOS_MP3_SERVER : String := "192.168.0.6/mp3"

structure SonosConfig where
  api_url : Option String
  mp3_server : Option String
deriving DecidableEq, Repr

def SonosConfig.get_api_url (c : SonosConfig) : String :=
  c.api_url.getD DEFAULT_SONOS_API_URL

def SonosConfig.get_mp3_server (c : SonosConfig) : String :=
  c.mp3_server.getD DEFAULT_SONOS_MP3_SERVER

/-! ### Auxiliary definitions used by the statements -/

/-- `interAll sep ps` glues one copy of `sep` before each piece of `ps`;
`head ++ interAll sep tail` reassembles a split list. -/
def interAll (sep : List Char) : List (List Char) → List Char
  | [] => []
  | p :: ps => sep ++ p ++ interAll sep ps

/-- `needle` occurs as a contiguous substring of `hay`. -/
def strContains (needle hay : String) : Prop :=
  ∃ a b : List Char, hay.data = a ++ needle.data ++ b

/-- A zone object whose coordinator has the given string `uuid` and
`roomName` plus any further coordinator fields (test fixture for the
volume claims). -/
def mkZone (uuid room_name : String) (coordExtra : List (String × Json)) : Json :=
  .obj [("coordinator",
         .obj ([("uuid", .strVal uuid), ("roomName", .strVal room_name)] ++ coordExtra))]

/-! ### Helper lemmas -/

theorem strData_append (a b : String) : (a ++ b).data = a.data ++ b.data := rfl

theorem splitSeqAux_join (m0 : Char) (ms : List Char) (l : List Char) :
    ∀ k, (splitSeqAux m0 ms l k).1 ++ interAll (m0 :: ms) (splitSeqAux m0 ms l k).2 =
      l.drop k := by
  induction l with
  | nil => intro k; simp [splitSeqAux, interAll]
  | cons c rest ih =>
    intro k
    cases k with
    | succ k => simpa [splitSeqAux] using ih k
    | zero =>
      by_cases hp : (m0 :: ms).isPrefixOf (c :: rest)
      · have hpre : (m0 :: ms) <+: (c :: rest) := List.isPrefixOf_iff_prefix.mp hp
        have heq : (m0 :: ms) ++ rest.drop ms.length = c :: rest := by
          have h2 := List.prefix_iff_eq_append.mp hpre
          simpa [List.drop_succ_cons] using h2
        simp only [splitSeqAux, hp, if_true, interAll, List.nil_append, List.drop_zero]
        rw [List.append_assoc, ih ms.length]
        simpa using heq
      · simp [splitSeqAux, hp, ih 0]

theorem splitOnSeq_two (pat l u p : List Char) (hne : pat ≠ [])
    (h : splitOnSeq pat l = [u, p]) : l = u ++ pat ++ p := by
  match pat, hne with
  | m0 :: ms, _ =>
    have hj := splitSeqAux_join m0 ms l 0
    simp only [splitOnSeq, List.cons.injEq] at h
    obtain ⟨h1, h2⟩ := h
    rw [h1, h2] at hj
    simp only [interAll, List.append_nil, List.drop_zero] at hj
    rw [← hj]
    simp [List.append_assoc]

theorem speakersLoop_eq_filterMap (zs : List Json) :
    speakersLoop zs = zs.filterMap zoneSpeaker := by
  induction zs with
  | nil => rfl
  | cons z rest ih =>
    cases h : zoneSpeaker z <;> simp [speakersLoop, h, ih, List.filterMap_cons]

/-! ### Claim C1 -/

/-- C1, counterexample: a success-status response whose body fails JSON
deserialization makes `get_speakers` return an error (the `?` on
`response.json()` propagates it), not the empty list the claim promises. -/
theorem get_speakers_malformed_body_errors :
    get_speakers (.response 200 none) = .error () := rfl

/-- C1 (amended): `get_speakers` turns a transport error or a non-success
status into `Ok` with an empty speaker list; it returns an error exactly
when a success-status response carries a body that fails JSON
deserialization. -/
theorem get_speakers_failure_policy (o : GetOutcome) :
    (get_speakers o = .error () ↔
      ∃ status, o = .response status none ∧ isSuccessStatus status = true)
    ∧ (o = .transportErr → get_speakers o = .ok [])
    ∧ (∀ status body, o = .response status body → isSuccessStatus status = false →
        get_speakers o = .ok []) := by
  refine ⟨?_, ?_, ?_⟩
  · cases o with
    | transportErr => simp [get_speakers]
    | response status body =>
      by_cases hs : isSuccessStatus status <;>
        cases body <;> simp [get_speakers, hs]
  · rintro rfl; rfl
  · rintro status body rfl hs
    simp [get_speakers, hs]

/-- Closed instance of C1's theorem. -/
theorem get_speakers_failure_policy_witness :
    get_speakers .transportErr = Except.ok [] ∧
    get_speakers (.response 503 (some (.arr []))) = Except.ok [] :=
  ⟨(get_speakers_failure_policy .transportErr).2.1 rfl,
   (get_speakers_failure_policy (.response 503 (some (.arr [])))).2.2 503
     (some (.arr [])) rfl (by decide)⟩

/-! ### Claim C2 -/

/-- C2, counterexample: a success-status response whose body fails JSON
deserialization makes `get_state` return an error (the `?` on
`response.json()` propagates it), not the empty state the claim promises. -/
theorem get_state_malformed_body_errors :
    get_state (.response 200 none) = .error () := rfl

/-- C2 (amended): `get_state` turns a transport error or a non-success
status into `Ok` with `is_playing = false` and every optional field `none`,
and never errors when the body deserializes (field-level parse misses just
leave fields empty); it returns an error exactly when a success-status
response carries a body that fails JSON deserialization. -/
theorem get_state_failure_policy (o : GetOutcome) :
    (get_state o = .error () ↔
      ∃ status, o = .response status none ∧ isSuccessStatus status = true)
    ∧ (o = .transportErr →
        get_state o = .ok { is_playing := false, artist := none, title := none
                            position := none, duration := none })
    ∧ (∀ status body, o = .response status body → isSuccessStatus status = false →
        get_state o = .ok { is_playing := false, artist := none, title := none
                            position := none, duration := none })
    ∧ (∀ status j, o = .response status (some j) →
        ∃ st, get_state o = .ok st) := by
  refine ⟨?_, ?_, ?_, ?_⟩
  · cases o with
    | transportErr => simp [get_state]
    | response status body =>
      by_cases hs : isSuccessStatus status <;>
        cases body <;> simp [get_state, hs]
  · rintro rfl; rfl
  · rintro status body rfl hs
    simp [get_state, hs]
  · rintro status j rfl
    by_cases hs : isSuccessStatus status <;> simp [get_state, hs]

/-- Closed instance of C2's theorem. -/
theorem get_state_failure_policy_witness :
    get_state .transportErr =
      Except.ok { is_playing := false, artist := none, title := none
                  position := none, duration := none } ∧
    get_state (.response 404 none) =
      Except.ok { is_playing := false, artist := none, title := none
                  position := none, duration := none } :=
  ⟨(get_state_failure_policy .transportErr).2.1 rfl,
   (get_state_failure_policy (.response 404 none)).2.2.1 404 none rfl (by decide)⟩

/-! ### Claim C3 -/

/-- C3, counterexample: `play_track` propagates the `urlencoding::decode`
error when the path after `/audio/` percent-decodes to invalid UTF-8
(`%FF` is the byte `0xFF`), so it does not return a result record on every
input. -/
theorem play_track_invalid_percent_escape_errors :
    play_track "Kitchen" "http://h/audio/%FF" "192.168.0.6/mp3"
      (.response 200 "OK" (some "")) = .error () := rfl

/-- C3 (amended): `play_track` returns an error exactly when percent-decoding
the extracted track path fails (invalid UTF-8 after decoding); for every
input whose path decodes, every HTTP outcome is encoded in the returned
result record. -/
theorem play_track_total_unless_decode_fails
    (speaker_id track_url file_server : String) (o : PostOutcome) :
    play_track speaker_id track_url file_server o = .error () ↔
      trackPath track_url = none := by
  cases h : trackPath track_url with
  | none => simp [play_track, h]
  | some p =>
    cases o with
    | transportErr e => simp [play_track, h]
    | response status reason body =>
      by_cases hs : isSuccessStatus status <;> simp [play_track, h, hs]

/-! ### Claim C4 -/

/-- C4, counterexample: a zone whose coordinator has a string `roomName` but
no `uuid` is skipped, so the claim's "one descriptor for each zone with a
coordinator and a string roomName" fails on this input (the code also
requires a string `uuid`). -/
theorem get_speakers_zone_without_uuid_skipped :
    get_speakers (.response 200 (some (.arr
      [.obj [("coordinator", .obj [("roomName", .strVal "Kitchen")])]]))) = .ok []
    ∧ ([] : List SonosSpeaker) ≠
        [{ id := "Kitchen", name := "Kitchen", available := true, volume := none }] :=
  ⟨rfl, by decide⟩

/-- C4 (amended): on a success-status JSON array, `get_speakers` emits one
descriptor per zone whose coordinator has both a string `uuid` and a string
`roomName` — with `available = true` and the room name as both id and name —
and silently skips every zone missing the coordinator, the `uuid`, or the
`roomName`. -/
theorem get_speakers_zone_emission (status : Nat) (zones : List Json)
    (hs : isSuccessStatus status = true) :
    (get_speakers (.response status (some (.arr zones))) =
      .ok (zones.filterMap zoneSpeaker))
    ∧ (∀ zone coordinator uuid room_name,
        zone.get "coordinator" = some coordinator →
        (coordinator.get "uuid").bind Json.as_str = some uuid →
        (coordinator.get "roomName").bind Json.as_str = some room_name →
        zoneSpeaker zone = some
          { id := room_name, name := room_name, available := true
            volume := (((coordinator.get "state").bind (fun s => s.get "volume")).bind
                         Json.as_u64).map (fun v => v % 2 ^ 8) })
    ∧ (∀ zone, zone.get "coordinator" = none → zoneSpeaker zone = none)
    ∧ (∀ zone coordinator, zone.get "coordinator" = some coordinator →
        (coordinator.get "roomName").bind Json.as_str = none → zoneSpeaker zone = none)
    ∧ (∀ zone coordinator, zone.get "coordinator" = some coordinator →
        (coordinator.get "uuid").bind Json.as_str = none → zoneSpeaker zone = none) := by
  refine ⟨?_, ?_, ?_, ?_, ?_⟩
  · simp [get_speakers, hs, speakersOfZones, Json.as_array, speakersLoop_eq_filterMap]
  · intro zone coordinator uuid room_name h1 h2 h3
    simp [zoneSpeaker, h1, h2, h3]
  · intro zone h1
    simp [zoneSpeaker, h1]
  · intro zone coordinator h1 h2
    cases hu : (coordinator.get "uuid").bind Json.as_str <;>
      simp [zoneSpeaker, h1, h2, hu]
  · intro zone coordinator h1 h2
    cases hr : (coordinator.get "roomName").bind Json.as_str <;>
      simp [zoneSpeaker, h1, h2, hr]

/-- Closed instance of C4's theorem. -/
theorem get_speakers_zone_emission_witness :
    get_speakers (.response 200 (some (.arr
      [.obj [("coordinator",
              .obj [("uuid", .strVal "RINCON_1"), ("roomName", .strVal "Kitchen")])]]))) =
      .ok [{ id := "Kitchen", name := "Kitchen", available := true, volume := none }] :=
  (get_speakers_zone_emission 200
    [.obj [("coordinator",
            .obj [("uuid", .strVal "RINCON_1"), ("roomName", .strVal "Kitchen")])]]
    (by decide)).1

/-! ### Claim C9 -/

/-- C9: a zone volume that is a JSON unsigned integer `v` (a serde `u64`,
hence `v < 2 ^ 64`) is recorded as `v` truncated by the `as u8` cast, i.e.
`v mod 256` — values above 255 wrap around — while a missing or non-integer
volume (float, string or negative) yields `none`. -/
theorem get_speakers_volume_truncation (uuid room_name : String) (v : Nat)
    (_hv : v < 2 ^ 64) :
    (get_speakers (.response 200 (some (.arr
        [mkZone uuid room_name [("state", .obj [("volume", .posInt v)])]]))) =
      .ok [{ id := room_name, name := room_name, available := true
             volume := some (v % 2 ^ 8) }])
    ∧ (get_speakers (.response 200 (some (.arr [mkZone uuid room_name []]))) =
      .ok [{ id := room_name, name := room_name, available := true, volume := none }])
    ∧ (get_speakers (.response 200 (some (.arr
        [mkZone uuid room_name [("state", .obj [("volume", .floatNum)])]]))) =
      .ok [{ id := room_name, name := room_name, available := true, volume := none }])
    ∧ (get_speakers (.response 200 (some (.arr
        [mkZone uuid room_name [("state", .obj [("volume", .strVal "50")])]]))) =
      .ok [{ id := room_name, name := room_name, available := true, volume := none }])
    ∧ (get_speakers (.response 200 (some (.arr
        [mkZone uuid room_name [("state", .obj [("volume", .negInt (-3))])]]))) =
      .ok [{ id := room_name, name := room_name, available := true, volume := none }]) :=
  ⟨rfl, rfl, rfl, rfl, rfl⟩

/-- Closed instance of C9's theorem: volume 300 wraps to 44. -/
theorem get_speakers_volume_truncation_witness :
    get_speakers (.response 200 (some (.arr
        [mkZone "RINCON_1" "Kitchen" [("state", .obj [("volume", .posInt 300)])]]))) =
      .ok [{ id := "Kitchen", name := "Kitchen", available := true, volume := some 44 }] :=
  (get_speakers_volume_truncation "RINCON_1" "Kitchen" 300 (by decide)).1

/-! ### Claim C5 -/

/-- C5, counterexample: with hours 5124095576030432 the weighted sum exceeds
the u64 range, so the parser returns the wrapped value 3584 rather than
H×3600 (a debug build would abort instead); the claim's formula fails
there. -/
theorem parse_time_to_seconds_u64_wrap :
    parse_time_to_seconds "5124095576030432:0:0" = some 3584
    ∧ (3584 : Nat) ≠ 5124095576030432 * 3600 + 0 * 60 + 0 :=
  ⟨by decide, by decide⟩

/-- C5 (amended): for three colon-separated fields that parse as u64 the
result is (H×3600 + M×60 + S) mod 2^64 — equal to the exact weighted sum
whenever that sum fits in u64 — for two such fields it is
(M×60 + S) mod 2^64 likewise, and any other field count yields `none`. -/
theorem parse_time_to_seconds_formats (t : String) :
    (∀ p0 p1 p2 hours minutes seconds,
      splitOnChar ':' t.data = [p0, p1, p2] →
      parseU64 p0 = some hours → parseU64 p1 = some minutes → parseU64 p2 = some seconds →
      parse_time_to_seconds t = some ((hours * 3600 + minutes * 60 + seconds) % 2 ^ 64)
      ∧ (hours * 3600 + minutes * 60 + seconds < 2 ^ 64 →
          parse_time_to_seconds t = some (hours * 3600 + minutes * 60 + seconds)))
    ∧ (∀ p0 p1 minutes seconds,
      splitOnChar ':' t.data = [p0, p1] →
      parseU64 p0 = some minutes → parseU64 p1 = some seconds →
      parse_time_to_seconds t = some ((minutes * 60 + seconds) % 2 ^ 64)
      ∧ (minutes * 60 + seconds < 2 ^ 64 →
          parse_time_to_seconds t = some (minutes * 60 + seconds)))
    ∧ ((splitOnChar ':' t.data).length ≠ 2 → (splitOnChar ':' t.data).length ≠ 3 →
        parse_time_to_seconds t = none) := by
  refine ⟨?_, ?_, ?_⟩
  · intro p0 p1 p2 hours minutes seconds hsplit h0 h1 h2
    refine ⟨?_, ?_⟩
    · simp [parse_time_to_seconds, hsplit, h0, h1, h2]
    · intro hlt
      have hmod : (hours * 3600 + minutes * 60 + seconds) % 2 ^ 64 =
          hours * 3600 + minutes * 60 + seconds := Nat.mod_eq_of_lt hlt
      simp [parse_time_to_seconds, hsplit, h0, h1, h2, hmod]
      omega
  · intro p0 p1 minutes seconds hsplit h0 h1
    refine ⟨?_, ?_⟩
    · simp [parse_time_to_seconds, hsplit, h0, h1]
    · intro hlt
      have hmod : (minutes * 60 + seconds) % 2 ^ 64 = minutes * 60 + seconds :=
        Nat.mod_eq_of_lt hlt
      simp [parse_time_to_seconds, hsplit, h0, h1, hmod]
      omega
  · intro hlen2 hlen3
    rcases hsplit : splitOnChar ':' t.data with _ | ⟨a, _ | ⟨b, _ | ⟨c, _ | ⟨d, tl⟩⟩⟩⟩
    · simp [parse_time_to_seconds, hsplit]
    · simp [parse_time_to_seconds, hsplit]
    · simp [hsplit] at hlen2
    · simp [hsplit] at hlen3
    · simp [parse_time_to_seconds, hsplit]

/-- Closed instance of C5's theorem. -/
theorem parse_time_to_seconds_formats_witness :
    parse_time_to_seconds "0:02:30" = some 150 :=
  ((parse_time_to_seconds_formats "0:02:30").1 "0".data "02".data "30".data 0 2 30
    (by decide) (by decide) (by decide) (by decide)).2 (by decide)

/-! ### Claim C10 -/

/-- C10, counterexample: both fields of "400000000000000000:0" parse, but
minutes × 60 exceeds the u64 range, so the result is the wrapped value, not
the exact weighted sum (a debug build would abort instead). -/
theorem parse_time_to_seconds_two_field_wrap :
    parse_time_to_seconds "400000000000000000:0" = some 5553255926290448384
    ∧ (5553255926290448384 : Nat) ≠ 400000000000000000 * 60 + 0 :=
  ⟨by decide, by decide⟩

/-- C10 (amended): the parser is total — on 2 or 3 colon-separated fields,
any field that fails to parse as u64 gives `none` rather than an error —
and fields that do parse are not range-checked: out-of-range components such
as "0:99" or "1:99:99" are accepted and summed with the usual weights
(modulo 2^64, the u64 width). -/
theorem parse_time_to_seconds_totality (t : String) :
    (∀ p0 p1, splitOnChar ':' t.data = [p0, p1] →
      parseU64 p0 = none ∨ parseU64 p1 = none → parse_time_to_seconds t = none)
    ∧ (∀ p0 p1 p2, splitOnChar ':' t.data = [p0, p1, p2] →
      parseU64 p0 = none ∨ parseU64 p1 = none ∨ parseU64 p2 = none →
      parse_time_to_seconds t = none)
    ∧ (∀ p0 p1 minutes seconds, splitOnChar ':' t.data = [p0, p1] →
      parseU64 p0 = some minutes → parseU64 p1 = some seconds →
      parse_time_to_seconds t = some ((minutes * 60 + seconds) % 2 ^ 64))
    ∧ parse_time_to_seconds "0:99" = some 99
    ∧ parse_time_to_seconds "1:99:99" = some 9639 := by
  refine ⟨?_, ?_, ?_, by decide, by decide⟩
  · intro p0 p1 hsplit hd
    rcases hd with h | h
    · simp [parse_time_to_seconds, hsplit, h]
    · cases h0 : parseU64 p0 <;> simp [parse_time_to_seconds, hsplit, h0, h]
  · intro p0 p1 p2 hsplit hd
    rcases hd with h | h | h
    · simp [parse_time_to_seconds, hsplit, h]
    · cases h0 : parseU64 p0 <;> simp [parse_time_to_seconds, hsplit, h0, h]
    · cases h0 : parseU64 p0 <;> cases h1 : parseU64 p1 <;>
        simp [parse_time_to_seconds, hsplit, h0, h1, h]
  · intro p0 p1 minutes seconds hsplit h0 h1
    simp [parse_time_to_seconds, hsplit, h0, h1]

/-- Closed instance of C10's theorem. -/
theorem parse_time_to_seconds_totality_witness :
    parse_time_to_seconds "50:07" = some 3007 :=
  (parse_time_to_seconds_totality "50:07").2.2.1 "50".data "07".data 50 7
    (by decide) (by decide) (by decide)

/-! ### Claim C6 -/

/-- C6, counterexample: when `/audio/` occurs twice, `split` cuts at the
second occurrence too and `nth(1)` keeps only the part between the two
markers, so the constructed URI is not built from everything following the
marker as the claim states. -/
theorem cifsUri_second_marker_truncates :
    cifsUri "http://host/audio/a/audio/b.mp3" "fs" = some "x-file-cifs://fs/a"
    ∧ ("x-file-cifs://fs/a" : String) ≠ "x-file-cifs://fs/a/audio/b.mp3" :=
  ⟨by decide, by decide⟩

/-- C6 (amended): when `/audio/` occurs in `track_url`, the decoded path is
the split piece between the first and second occurrence (everything after
the marker when it occurs exactly once, as in the claim's example); when
the marker is absent the whole URL is used as the path. -/
theorem cifsUri_construction (track_url file_server : String) :
    (∀ u p, splitOnSeq audioMarker track_url.data = [u, p] →
      track_url.data = u ++ audioMarker ++ p
      ∧ cifsUri track_url file_server =
          (urlDecode (String.mk p)).map
            (fun d => "x-file-cifs://" ++ file_server ++ "/" ++ d))
    ∧ (∀ u p rest, splitOnSeq audioMarker track_url.data = u :: p :: rest →
      cifsUri track_url file_server =
        (urlDecode (String.mk p)).map
          (fun d => "x-file-cifs://" ++ file_server ++ "/" ++ d))
    ∧ ((splitOnSeq audioMarker track_url.data).length = 1 →
      cifsUri track_url file_server =
        some ("x-file-cifs://" ++ file_server ++ "/" ++ track_url))
    ∧ cifsUri "http://host/api/v8/audio/Test%2FSong.mp3" "192.168.0.6/mp3" =
        some "x-file-cifs://192.168.0.6/mp3/Test/Song.mp3" := by
  refine ⟨?_, ?_, ?_, by decide⟩
  · intro u p hsplit
    refine ⟨splitOnSeq_two _ _ _ _ (by decide) hsplit, ?_⟩
    simp [cifsUri, trackPath, hsplit]
  · intro u p rest hsplit
    simp [cifsUri, trackPath, hsplit]
  · intro hlen
    rcases hsp : splitOnSeq audioMarker track_url.data with _ | ⟨a, _ | ⟨b, tl⟩⟩
    · rw [hsp] at hlen; simp at hlen
    · simp [cifsUri, trackPath, hsp]
    · rw [hsp] at hlen; simp at hlen

/-- Closed instance of C6's theorem: no marker, so the whole URL is the
path. -/
theorem cifsUri_construction_witness :
    cifsUri "plain.mp3" "fs" = some ("x-file-cifs://" ++ "fs" ++ "/" ++ "plain.mp3") :=
  (cifsUri_construction "plain.mp3" "fs").2.2.1 (by decide)

/-! ### Claim C7 -/

/-- C7: once the track path decodes, every HTTP outcome of the POST maps to
an `Ok` result record: a success status gives `success = true` with the
fixed confirmation message; a non-success status gives `success = false`
with a message containing the status code and the response body text; a
transport failure gives `success = false` with a message containing the
error description. -/
theorem play_track_result_mapping (speaker_id track_url file_server : String)
    (h : (trackPath track_url).isSome = true) :
    (∀ status reason body, isSuccessStatus status = true →
      play_track speaker_id track_url file_server (.response status reason body) =
        .ok { success := true, message := "Track started playing on Sonos" })
    ∧ (∀ status reason body, isSuccessStatus status = false →
      ∃ msg, play_track speaker_id track_url file_server (.response status reason body) =
          .ok { success := false, message := msg }
        ∧ strContains (toString status) msg
        ∧ strContains (body.getD "") msg)
    ∧ (∀ e, ∃ msg,
        play_track speaker_id track_url file_server (.transportErr e) =
          .ok { success := false, message := msg }
        ∧ strContains e msg) := by
  obtain ⟨p, hp⟩ := Option.isSome_iff_exists.mp h
  refine ⟨?_, ?_, ?_⟩
  · intro status reason body hs
    simp [play_track, hp, hs]
  · intro status reason body hs
    refine ⟨"HTTP error " ++ toString status ++ " " ++ reason ++ ": " ++ body.getD "",
            ?_, ?_, ?_⟩
    · simp [play_track, hp, hs]
    · exact ⟨"HTTP error ".data, (" " ++ reason ++ ": " ++ body.getD "").data,
        by simp [strData_append, List.append_assoc]⟩
    · exact ⟨("HTTP error " ++ toString status ++ " " ++ reason ++ ": ").data, [],
        by simp [strData_append, List.append_assoc]⟩
  · intro e
    refine ⟨"Connection error: " ++ e, ?_, ?_⟩
    · simp [play_track, hp]
    · exact ⟨"Connection error: ".data, [], by simp [strData_append]⟩

/-- Closed instance of C7's theorem. -/
theorem play_track_result_mapping_witness :
    play_track "Kitchen" "http://h/audio/x.mp3" "192.168.0.6/mp3"
      (.response 200 "OK" none) =
      .ok { success := true, message := "Track started playing on Sonos" } :=
  (play_track_result_mapping "Kitchen" "http://h/audio/x.mp3" "192.168.0.6/mp3"
    (by decide)).1 200 "OK" none (by decide)

/-! ### Claim C8 -/

/-- C8: `get_api_url` falls back to the default control-API URL exactly when
`api_url` is unset, `get_mp3_server` to the default file-share server
exactly when `mp3_server` is unset, and both return a supplied value
unchanged. -/
theorem sonos_config_defaults (c : SonosConfig) :
    (c.api_url = none → c.get_api_url = "http://192.168.0.5:5005")
    ∧ (c.mp3_server = none → c.get_mp3_server = "192.168.0.6/mp3")
    ∧ (∀ s, c.api_url = some s → c.get_api_url = s)
    ∧ (∀ s, c.mp3_server = some s → c.get_mp3_server = s) := by
  refine ⟨?_, ?_, ?_, ?_⟩
  · intro h; simp [SonosConfig.get_api_url, h, DEFAULT_SONOS_API_URL]
  · intro h; simp [SonosConfig.get_mp3_server, h, DEFAULT_SONOS_MP3_SERVER]
  · intro s h; simp [SonosConfig.get_api_url, h]
  · intro s h; simp [SonosConfig.get_mp3_server, h]

/-- Closed instance of C8's theorem. -/
theorem sonos_config_defaults_witness :
    SonosConfig.get_api_url { api_url := none, mp3_server := none } =
      "http://192.168.0.5:5005"
    ∧ SonosConfig.get_mp3_server { api_url := none, mp3_server := none } =
      "192.168.0.6/mp3"
    ∧ SonosConfig.get_api_url { api_url := some "http://10.0.0.1:9", mp3_server := none } =
      "http://10.0.0.1:9" :=
  ⟨(sonos_config_defaults _).1 rfl, (sonos_config_defaults _).2.1 rfl,
   (sonos_config_defaults _).2.2.1 _ rfl⟩
